import Mathlib

/-
Verification of the pinocchio-fundraiser on-ledger program.

Shallow embedding of the instruction handlers (Initialize, Contribute,
Claim, Refund) of the crowdfunding program, translated from the Rust
sources under src/.  Machine integers (u64) are modelled as Nat together
with explicit reduction modulo 2 ^ 64 at every operation the release
profile compiles to wrapping arithmetic; i64 timestamps are modelled as
Int (exact), and the one u64-to-i64 bit cast appearing in the sources is
modelled explicitly by i64OfU64.  Fallible code returns Except.
-/

namespace Pinocchio

/-! ## Machine arithmetic -/

def U64_MOD : Nat := 2 ^ 64

/-- Wrapping u64 addition (release-profile Rust `+`). -/
def u64add (a b : Nat) : Nat := (a + b) % U64_MOD

/-- Wrapping u64 subtraction (release-profile Rust `-`), for a b < 2 ^ 64. -/
def u64sub (a b : Nat) : Nat := (a + U64_MOD - b) % U64_MOD

/-- The bit-reinterpreting cast `u64 as i64` of the Rust sources. -/
def i64OfU64 (n : Nat) : Int := if n < 2 ^ 63 then (n : Int) else (n : Int) - 2 ^ 64

/-! ## Constants

Modelled from the spec: the crate constants module (`src/constants.rs`,
referenced from lib.rs) is not under src/, so its values are modelled from
the spec.  Section 8 of the spec fixes the cap denominator at 10000 basis
points; the numerator constant is not given a value by the spec and is
taken as 10000, the only value under which the contribution of the full
target amount performed by the claim test in src passes the
ContributionTooBig check; the minimum-raise constant is taken as 3,
matching the InvalidAmount message in src/src/errors.rs; a day is 86400
seconds. -/

/-- Modelled from the spec: cap denominator, spec section 8 (`/ 10000`). -/
def MAX_BPS : Nat := 10000

/-- Modelled from the spec: cap numerator in basis points (value not under src/). -/
def MAX_CONTRIBUTION_PERCENTAGE_BPS : Nat := 10000

/-- Modelled from the spec: minimum-raise constant (value not under src/). -/
def MIN_AMOUNT_TO_RAISE : Nat := 3

/-- Modelled from the spec: seconds per day divisor (value not under src/). -/
def SECONDS_TO_DAYS : Int := 86400

/-! ## Errors (src/src/errors.rs and pinocchio ProgramError) -/

inductive FundraiserError where
  | NotSigner
  | InvalidAddress
  | TargetNotMet
  | TargetMet
  | ContributionTooBig
  | ContributionTooSmall
  | MaximumContributionsReached
  | FundraiserNotEnded
  | FundraiserEnded
  | InvalidAmount
  | InvalidMintToRaise
  | BelowMinRaiseAmount
deriving DecidableEq, Repr

inductive ProgramError where
  | Custom (e : FundraiserError)
  | IncorrectProgramId
  | InvalidAccountOwner
  | InvalidAccountData
  | NotEnoughAccountKeys
  | InvalidInstructionData
  | TokenProgramFailure
deriving DecidableEq, Repr

/-! ## Account owners -/

inductive AccountOwner where
  | tokenProgram
  | token2022Program
  | fundraiserProgram
  | systemProgram
  | otherProgram
deriving DecidableEq, Repr

/-- The owner patterns accepted by the `match account.owner()` blocks of
contribute.rs, claim.rs, refund.rs and the mint helpers: the legacy token
program or the 2022 token program. -/
def ownerValid (o : AccountOwner) : Prop :=
  o = AccountOwner.tokenProgram ∨ o = AccountOwner.token2022Program

instance (o : AccountOwner) : Decidable (ownerValid o) :=
  inferInstanceAs (Decidable (_ ∨ _))

/-! ## Records (src/src/state/fundraise.rs, src/src/state/contributor.rs) -/

structure Fundraise where
  maker : Nat
  mintToRaise : Nat
  amountToRaise : Nat
  currentAmount : Nat
  timeStarted : Int
  duration : Nat
  bump : Nat
deriving DecidableEq, Repr

structure Contributor where
  fundraise : Nat
  authority : Nat
  amount : Nat
  bump : Nat
deriving DecidableEq, Repr

/-! ## Address derivation

The hash-based program-address derivation is an external collaborator
(spec section 4.1 describes it as a deterministic pure function of the
seeds); it is modelled as an injective encoding of the seed list into a
Nat.  Seed byte-string labels are encoded as fixed distinct tags. -/

def fundraiseSeedTag : Nat := 101

def contributorSeedTag : Nat := 102

def createProgramAddress (seeds : List Nat) : Nat :=
  seeds.foldl Nat.pair 0

/-- Modelled from the spec: the associated-token helper
(`src/helpers/associated_token.rs`, referenced from src) is not under
src/.  Spec section 4.2: the canonical custodial account address is a
deterministic derivation from the owning account and the asset. -/
def ataDerive (owner mint : Nat) : Nat :=
  Nat.pair (Nat.pair owner mint) 1

/-! ## Token transfer collaborator

The fungible-asset transfer primitive (both variants): moving `amount`
from one balance to another fails when the source balance is
insufficient or the destination balance would overflow u64. -/

def tokenTransfer (amount fromBal toBal : Nat) : Except ProgramError (Nat × Nat) :=
  if amount > fromBal then .error .TokenProgramFailure
  else if toBal + amount ≥ U64_MOD then .error .TokenProgramFailure
  else .ok (fromBal - amount, toBal + amount)

/-! ## Contribute (src/src/instructions/contribute.rs, Contribute::process) -/

structure ContributeInput where
  amount : Nat
  mintOwner : AccountOwner
  decimals : Nat
  mintKey : Nat
  fundraiseKey : Nat
  fundraise : Fundraise
  contributor : Contributor
  now : Int
  authorityTokenBalance : Nat
  vaultBalance : Nat
deriving DecidableEq, Repr

structure ContributeOutput where
  fundraise : Fundraise
  contributor : Contributor
  authorityTokenBalance : Nat
  vaultBalance : Nat
deriving DecidableEq, Repr

/-- The per-contributor cap exactly as contribute.rs computes it:
`amount_to_raise * MAX_CONTRIBUTION_PERCENTAGE_BPS / MAX_BPS` with
release-profile wrapping u64 multiplication. -/
def capOf (target : Nat) : Nat :=
  target * MAX_CONTRIBUTION_PERCENTAGE_BPS % U64_MOD / MAX_BPS

/-- Contribute::process, translated line by line from contribute.rs:
decimals are read from the mint (line 145), the minimum check compares
against `1u64.pow(decimals)` (line 165), the campaign address is
re-validated (line 174), the mint compared (line 175), the single
contribution compared to the cap (line 179), the clock read and the time
window checked (line 190), the cumulative amount checked (line 201), and
the records updated and the transfer invoked (lines 209-222). -/
def contribute (i : ContributeInput) : Except ProgramError ContributeOutput :=
  if ownerValid i.mintOwner then
    if i.amount ≤ 1 ^ i.decimals then .error (.Custom .ContributionTooSmall)
    else if createProgramAddress [fundraiseSeedTag, i.fundraise.maker, i.fundraise.bump]
        ≠ i.fundraiseKey then .error (.Custom .InvalidAddress)
    else if i.fundraise.mintToRaise ≠ i.mintKey then .error (.Custom .InvalidMintToRaise)
    else if i.amount > capOf i.fundraise.amountToRaise then
      .error (.Custom .ContributionTooBig)
    else if i.now ≠ i.fundraise.timeStarted ∧
        i64OfU64 i.fundraise.duration
          > Int.tdiv (i.now - i.fundraise.timeStarted) SECONDS_TO_DAYS then
      .error (.Custom .FundraiserEnded)
    else if i.contributor.amount > capOf i.fundraise.amountToRaise ∨
        u64add i.contributor.amount i.amount > capOf i.fundraise.amountToRaise then
      .error (.Custom .MaximumContributionsReached)
    else
      match tokenTransfer i.amount i.authorityTokenBalance i.vaultBalance with
      | .error e => .error e
      | .ok (payerBal, vaultBal) =>
          .ok { fundraise :=
                  { i.fundraise with
                    currentAmount := u64add i.fundraise.currentAmount i.amount }
                contributor :=
                  { i.contributor with amount := u64add i.contributor.amount i.amount }
                authorityTokenBalance := payerBal
                vaultBalance := vaultBal }
  else .error .IncorrectProgramId

/-! ## Initialize (src/src/instructions/initialize.rs, process) -/

structure InitInput where
  mintOwner : AccountOwner
  decimals : Nat
  amountToRaise : Nat
  duration : Nat
  now : Int
  makerKey : Nat
  mintKey : Nat
  bump : Nat
deriving DecidableEq, Repr

/-- The minimum-raise floor exactly as initialize.rs line 149 computes it:
`u64::from(MIN_AMOUNT_TO_RAISE).pow(decimals)` (wrapping in release). -/
def initFloor (decimals : Nat) : Nat :=
  MIN_AMOUNT_TO_RAISE ^ decimals % U64_MOD

/-- The process step of the Initialize handler (initialize.rs lines
133-165): read decimals from the mint, reject a target at or below the
floor, then stamp the record. -/
def initCampaign (i : InitInput) : Except ProgramError Fundraise :=
  if ownerValid i.mintOwner then
    if i.amountToRaise ≤ initFloor i.decimals then
      .error (.Custom .BelowMinRaiseAmount)
    else
      .ok { maker := i.makerKey
            mintToRaise := i.mintKey
            amountToRaise := i.amountToRaise
            currentAmount := 0
            timeStarted := i.now
            duration := i.duration
            bump := i.bump }
  else .error .IncorrectProgramId

/-! ## Refund (src/src/instructions/refund.rs, Refund::process) -/

structure RefundInput where
  fundraise : Fundraise
  fundraiseKey : Nat
  mintKey : Nat
  contributor : Contributor
  contributorKey : Nat
  now : Int
  vaultOwner : AccountOwner
  vaultBalance : Nat
  authorityTokenBalance : Nat
  contributorRentLamports : Nat
  vaultRentLamports : Nat
  makerLamports : Nat
  authorityLamports : Nat
deriving DecidableEq, Repr

structure RefundOutput where
  fundraise : Fundraise
  vaultBalance : Nat
  authorityTokenBalance : Nat
  vaultClosed : Bool
  makerLamports : Nat
  authorityLamports : Nat
  contribClosed : Bool
  contribData : List Nat
deriving DecidableEq, Repr

/-- Refund::process, translated from refund.rs: validate the campaign
address against its stored maker and bump (line 97), compare the mint
(line 98), validate the contributor record address against its stored
fields (line 110), check the time window (line 117), read the vault
balance through the owner match (line 121), reject when the target is met
(line 143), subtract the recorded amount from the campaign total with the
unguarded u64 subtraction of line 149, transfer the recorded amount from
the vault to the contributor asset account (line 159), close the vault to
the maker when the pre-transfer balance minus the recorded amount is zero
(lines 168-176), and close the contributor record
(ProgramAccount::close, src/src/helpers/program.rs lines 70-79: write
0xff into the leading byte, move the record lamports to the destination,
shrink to one byte). -/
def refund (i : RefundInput) : Except ProgramError RefundOutput :=
  if createProgramAddress [fundraiseSeedTag, i.fundraise.maker, i.fundraise.bump]
      ≠ i.fundraiseKey then .error (.Custom .InvalidAddress)
  else if i.fundraise.mintToRaise ≠ i.mintKey then .error (.Custom .InvalidMintToRaise)
  else if createProgramAddress
      [contributorSeedTag, i.contributor.fundraise, i.contributor.authority,
        i.contributor.bump] ≠ i.contributorKey then .error (.Custom .InvalidAddress)
  else if i64OfU64 i.fundraise.duration
      < Int.tdiv (i.now - i.fundraise.timeStarted) SECONDS_TO_DAYS then
    .error (.Custom .FundraiserEnded)
  else if ownerValid i.vaultOwner then
    if i.vaultBalance ≥ i.fundraise.amountToRaise then .error (.Custom .TargetMet)
    else
      match tokenTransfer i.contributor.amount i.vaultBalance i.authorityTokenBalance with
      | .error e => .error e
      | .ok (vaultBal, authBal) =>
          let vClosed := u64sub i.vaultBalance i.contributor.amount == 0
          .ok { fundraise :=
                  { i.fundraise with
                    currentAmount :=
                      u64sub i.fundraise.currentAmount i.contributor.amount }
                vaultBalance := vaultBal
                authorityTokenBalance := authBal
                vaultClosed := vClosed
                makerLamports :=
                  if vClosed then i.makerLamports + i.vaultRentLamports
                  else i.makerLamports
                authorityLamports := i.authorityLamports + i.contributorRentLamports
                contribClosed := true
                contribData := [255] }
  else .error .IncorrectProgramId

/-! ## Claim (src/src/instructions/claim.rs) -/

structure ClaimInput where
  vaultOwner : AccountOwner
  vaultBalance : Nat
  fundraise : Fundraise
  makerTokenBalance : Nat
deriving DecidableEq, Repr

/-- Claim::process (claim.rs lines 84-131): read the current vault
balance through the owner match, reject when it is below the target, then
transfer the entire balance to the maker asset account under the campaign
derived authority.  Returns the final (vault, maker asset account)
balances. -/
def claimProcess (i : ClaimInput) : Except ProgramError (Nat × Nat) :=
  if ownerValid i.vaultOwner then
    if i.vaultBalance < i.fundraise.amountToRaise then .error (.Custom .TargetNotMet)
    else
      match tokenTransfer i.vaultBalance i.vaultBalance i.makerTokenBalance with
      | .error e => .error e
      | .ok p => .ok p
  else .error .IncorrectProgramId

def MINT_BASE_LEN : Nat := 82

/-- MintInterface::check (src/src/helpers/mint_interface.rs): the mint
must be owned by one of the two token programs, with the exact base
length for the legacy program, or the base length or the 2022 mint
discriminator byte at offset 165 for the 2022 program. -/
def mintInterfaceCheck (owner : AccountOwner) (len disc165 : Nat) :
    Except ProgramError Unit :=
  if owner = AccountOwner.token2022Program then
    if len ≠ MINT_BASE_LEN ∧ disc165 ≠ 1 then .error .InvalidAccountData else .ok ()
  else if owner = AccountOwner.tokenProgram then
    if len ≠ MINT_BASE_LEN then .error .InvalidAccountData else .ok ()
  else .error .InvalidAccountOwner

/-- Modelled from the spec: AssociatedTokenAccount::check
(`src/helpers/associated_token.rs`, referenced from src) is not under
src/.  Spec section 4.2: the account address must be the canonical
derivation for the given owner and asset, and the account must be owned
by the token-program variant that owns the mint. -/
def ataCheck (accountKey : Nat) (accountOwner : AccountOwner) (ownerKey mintKey : Nat)
    (mintOwner : AccountOwner) : Except ProgramError Unit :=
  if accountKey ≠ ataDerive ownerKey mintKey then .error (.Custom .InvalidAddress)
  else if accountOwner ≠ mintOwner then .error .InvalidAccountOwner
  else .ok ()

structure ClaimAccountsInput where
  makerIsSigner : Bool
  makerKey : Nat
  mintKey : Nat
  mintOwner : AccountOwner
  mintDataLen : Nat
  mintDisc165 : Nat
  fundraiseOwner : AccountOwner
  fundraiseKey : Nat
  vaultKey : Nat
  vaultOwner : AccountOwner
  vaultBalance : Nat
  makerTokenKey : Nat
  makerTokenBalance : Nat
  fundraise : Fundraise
deriving DecidableEq, Repr

/-- The whole Claim instruction: ClaimAccounts::try_from (claim.rs lines
25-55: signer check on the maker account, mint interface check, program
ownership of the campaign record, custodial-vault check), the lazy
creation of the signer asset account keyed by the signer (claim.rs lines
68-75), and then Claim::process.  No check compares the signer key
against the maker field stored in the campaign record. -/
def claimFull (i : ClaimAccountsInput) : Except ProgramError (Nat × Nat) :=
  if i.makerIsSigner = false then .error (.Custom .NotSigner)
  else
    match mintInterfaceCheck i.mintOwner i.mintDataLen i.mintDisc165 with
    | .error e => .error e
    | .ok _ =>
      if i.fundraiseOwner ≠ AccountOwner.fundraiserProgram then
        .error .InvalidAccountOwner
      else
        match ataCheck i.vaultKey i.vaultOwner i.fundraiseKey i.mintKey i.mintOwner with
        | .error e => .error e
        | .ok _ =>
          if i.makerTokenKey ≠ ataDerive i.makerKey i.mintKey then
            .error (.Custom .InvalidAddress)
          else
            claimProcess { vaultOwner := i.vaultOwner
                           vaultBalance := i.vaultBalance
                           fundraise := i.fundraise
                           makerTokenBalance := i.makerTokenBalance }

/-! ## System model: one campaign, the set of live contributor records

Used for the ledger-level invariant: the records live in an association
list from contributor key to recorded amount (one record per
contributor, as enforced by the address derivation). -/

def alookup (k : Nat) : List (Nat × Nat) → Option Nat
  | [] => none
  | (k', v) :: rest => if k' = k then some v else alookup k rest

def aupsert (k v : Nat) : List (Nat × Nat) → List (Nat × Nat)
  | [] => [(k, v)]
  | (k', v') :: rest =>
      if k' = k then (k, v) :: rest else (k', v') :: aupsert k v rest

def aremove (k : Nat) (l : List (Nat × Nat)) : List (Nat × Nat) :=
  l.filter (fun p => p.1 ≠ k)

def listSum (l : List (Nat × Nat)) : Nat :=
  l.foldr (fun p acc => p.2 + acc) 0

def keysNodup (l : List (Nat × Nat)) : Prop := (l.map Prod.fst).Nodup

structure SysState where
  fundraise : Fundraise
  contribs : List (Nat × Nat)
  vaultBalance : Nat
deriving DecidableEq, Repr

/-- The Contribute::process input assembled by the account layer from the
system state: a validated campaign account and the (lazily
zero-initialised) contributor record for `ckey`. -/
def contributeInputOf (s : SysState) (ckey amount decimals : Nat) (now : Int)
    (payerBal : Nat) : ContributeInput :=
  { amount := amount
    mintOwner := AccountOwner.tokenProgram
    decimals := decimals
    mintKey := s.fundraise.mintToRaise
    fundraiseKey :=
      createProgramAddress [fundraiseSeedTag, s.fundraise.maker, s.fundraise.bump]
    fundraise := s.fundraise
    contributor :=
      { fundraise :=
          createProgramAddress [fundraiseSeedTag, s.fundraise.maker, s.fundraise.bump]
        authority := ckey
        amount := (alookup ckey s.contribs).getD 0
        bump := 0 }
    now := now
    authorityTokenBalance := payerBal
    vaultBalance := s.vaultBalance }

/-- One Contribute invocation against the system state. -/
def sysContribute (s : SysState) (ckey amount decimals : Nat) (now : Int)
    (payerBal : Nat) : Except ProgramError SysState :=
  match contribute (contributeInputOf s ckey amount decimals now payerBal) with
  | .error e => .error e
  | .ok out =>
      .ok { fundraise := out.fundraise
            contribs := aupsert ckey out.contributor.amount s.contribs
            vaultBalance := out.vaultBalance }

/-- The Refund::process input assembled by the account layer from the
system state, given the live recorded amount `c` for `ckey`. -/
def refundInputOf (s : SysState) (ckey c : Nat) (now : Int)
    (payerBal rent vaultRent mLam aLam : Nat) : RefundInput :=
  { fundraise := s.fundraise
    fundraiseKey :=
      createProgramAddress [fundraiseSeedTag, s.fundraise.maker, s.fundraise.bump]
    mintKey := s.fundraise.mintToRaise
    contributor :=
      { fundraise :=
          createProgramAddress [fundraiseSeedTag, s.fundraise.maker, s.fundraise.bump]
        authority := ckey
        amount := c
        bump := 0 }
    contributorKey :=
      createProgramAddress
        [contributorSeedTag,
          createProgramAddress [fundraiseSeedTag, s.fundraise.maker, s.fundraise.bump],
          ckey, 0]
    now := now
    vaultOwner := AccountOwner.tokenProgram
    vaultBalance := s.vaultBalance
    authorityTokenBalance := payerBal
    contributorRentLamports := rent
    vaultRentLamports := vaultRent
    makerLamports := mLam
    authorityLamports := aLam }

/-- One Refund invocation against the system state: the account layer
requires the contributor record for `ckey` to exist (the record account
check fails on a missing or foreign-owned account), then Refund::process
runs and the record is destroyed. -/
def sysRefund (s : SysState) (ckey : Nat) (now : Int)
    (payerBal rent vaultRent mLam aLam : Nat) : Except ProgramError SysState :=
  match alookup ckey s.contribs with
  | none => .error .InvalidAccountOwner
  | some c =>
      match refund (refundInputOf s ckey c now payerBal rent vaultRent mLam aLam) with
      | .error e => .error e
      | .ok out =>
          .ok { fundraise := out.fundraise
                contribs := aremove ckey s.contribs
                vaultBalance := out.vaultBalance }

/-- The ledger invariant of spec section 8, strengthened with the two
facts the preservation argument needs: the keys of the live records are
distinct (one record per contributor), and the custodial vault balance
equals the same sum (contributions are the only deposits), which bounds
the sum below 2 ^ 64. -/
def Inv (s : SysState) : Prop :=
  keysNodup s.contribs ∧
  s.fundraise.currentAmount = listSum s.contribs ∧
  s.vaultBalance = listSum s.contribs ∧
  listSum s.contribs < U64_MOD

instance (s : SysState) : Decidable (Inv s) := by
  unfold Inv keysNodup
  infer_instance

/-! ## Association-list lemmas -/

theorem alookup_le_listSum {k c : Nat} : ∀ {l : List (Nat × Nat)},
    alookup k l = some c → c ≤ listSum l := by
  intro l
  induction l with
  | nil => intro h; simp [alookup] at h
  | cons p rest ih =>
      intro h
      rw [alookup] at h
      by_cases hk : p.1 = k
      · rw [if_pos hk] at h
        cases h
        simp [listSum]
      · rw [if_neg hk] at h
        have := ih h
        simp only [listSum, List.foldr] at *
        omega

theorem listSum_cons (p : Nat × Nat) (l : List (Nat × Nat)) :
    listSum (p :: l) = p.2 + listSum l := rfl

theorem aremove_cons (k : Nat) (p : Nat × Nat) (rest : List (Nat × Nat)) :
    aremove k (p :: rest) =
      if p.1 = k then aremove k rest else p :: aremove k rest := by
  by_cases h : p.1 = k <;> simp [aremove, List.filter_cons, h]

theorem mem_keys_aupsert {m k v : Nat} : ∀ {l : List (Nat × Nat)},
    m ∈ (aupsert k v l).map Prod.fst → m = k ∨ m ∈ l.map Prod.fst := by
  intro l
  induction l with
  | nil =>
      intro h
      rw [aupsert] at h
      simp only [List.map_cons, List.map_nil, List.mem_singleton] at h
      exact Or.inl h
  | cons p rest ih =>
      intro h
      rw [aupsert] at h
      by_cases hk : p.1 = k
      · rw [if_pos hk] at h
        rw [List.map_cons, List.mem_cons] at h
        rcases h with h | h
        · exact Or.inl h
        · exact Or.inr (by rw [List.map_cons, List.mem_cons]; exact Or.inr h)
      · rw [if_neg hk] at h
        rw [List.map_cons, List.mem_cons] at h
        rcases h with h | h
        · exact Or.inr (by rw [List.map_cons, List.mem_cons]; exact Or.inl h)
        · rcases ih h with h' | h'
          · exact Or.inl h'
          · exact Or.inr (by rw [List.map_cons, List.mem_cons]; exact Or.inr h')

theorem keysNodup_aupsert {k v : Nat} : ∀ {l : List (Nat × Nat)},
    keysNodup l → keysNodup (aupsert k v l) := by
  intro l
  induction l with
  | nil => intro _; simp [aupsert, keysNodup]
  | cons p rest ih =>
      intro h
      rw [keysNodup, List.map_cons, List.nodup_cons] at h
      obtain ⟨hnot, hrest⟩ := h
      rw [aupsert]
      by_cases hk : p.1 = k
      · rw [if_pos hk]
        rw [keysNodup, List.map_cons, List.nodup_cons]
        exact ⟨by rw [← hk]; exact hnot, hrest⟩
      · rw [if_neg hk]
        rw [keysNodup, List.map_cons, List.nodup_cons]
        refine ⟨fun hmem => ?_, ih hrest⟩
        rcases mem_keys_aupsert hmem with h' | h'
        · exact hk h'
        · exact hnot h'

theorem listSum_aupsert {k v : Nat} : ∀ {l : List (Nat × Nat)},
    listSum (aupsert k v l) + (alookup k l).getD 0 = listSum l + v := by
  intro l
  induction l with
  | nil => simp [aupsert, alookup, listSum]
  | cons p rest ih =>
      rw [aupsert, alookup]
      by_cases hk : p.1 = k
      · rw [if_pos hk, if_pos hk]
        rw [listSum_cons, listSum_cons, Option.getD_some]
        omega
      · rw [if_neg hk, if_neg hk]
        rw [listSum_cons, listSum_cons]
        omega

theorem aremove_of_not_mem {k : Nat} : ∀ {l : List (Nat × Nat)},
    k ∉ l.map Prod.fst → aremove k l = l := by
  intro l
  induction l with
  | nil => intro _; rfl
  | cons p rest ih =>
      intro h
      simp only [List.map_cons, List.mem_cons, not_or] at h
      have hp : ¬p.1 = k := fun he => h.1 he.symm
      rw [aremove_cons, if_neg hp, ih h.2]

theorem listSum_aremove {k c : Nat} : ∀ {l : List (Nat × Nat)},
    keysNodup l → alookup k l = some c → listSum (aremove k l) + c = listSum l := by
  intro l
  induction l with
  | nil => intro _ h; simp [alookup] at h
  | cons p rest ih =>
      intro hnd h
      rw [keysNodup, List.map_cons, List.nodup_cons] at hnd
      rw [alookup] at h
      rw [aremove_cons]
      by_cases hk : p.1 = k
      · rw [if_pos hk] at h ⊢
        cases h
        rw [aremove_of_not_mem (hk ▸ hnd.1), listSum_cons]
        omega
      · rw [if_neg hk] at h ⊢
        have := ih hnd.2 h
        rw [listSum_cons, listSum_cons]
        omega

theorem keysNodup_aremove {k : Nat} {l : List (Nat × Nat)}
    (h : keysNodup l) : keysNodup (aremove k l) := by
  rw [keysNodup] at h ⊢
  exact ((List.filter_sublist l).map Prod.fst).nodup h

/-! ## Shape of a successful transfer and a successful step -/

theorem tokenTransfer_ok_iff {a f t : Nat} {p : Nat × Nat} :
    tokenTransfer a f t = .ok p ↔ a ≤ f ∧ t + a < U64_MOD ∧ p = (f - a, t + a) := by
  unfold tokenTransfer
  split_ifs with h1 h2
  · exact iff_of_false (by simp) (fun ⟨ha, _, _⟩ => absurd ha (by omega))
  · exact iff_of_false (by simp) (fun ⟨_, hb, _⟩ => absurd hb (by omega))
  · constructor
    · intro h
      simp only [Except.ok.injEq] at h
      exact ⟨by omega, by omega, h.symm⟩
    · rintro ⟨_, _, rfl⟩
      rfl

theorem tokenTransfer_error_shape {a f t : Nat} {e : ProgramError}
    (h : tokenTransfer a f t = .error e) : e = ProgramError.TokenProgramFailure := by
  unfold tokenTransfer at h
  split_ifs at h <;> simp_all

theorem u64add_eq_of_lt {a b : Nat} (h : a + b < U64_MOD) : u64add a b = a + b :=
  Nat.mod_eq_of_lt h

theorem u64sub_eq_of_le {a b : Nat} (hb : b ≤ a) (ha : a < U64_MOD) :
    u64sub a b = a - b := by
  unfold u64sub
  rw [show a + U64_MOD - b = (a - b) + U64_MOD by omega, Nat.add_mod_right]
  exact Nat.mod_eq_of_lt (by omega)

theorem contribute_ok_spec {i : ContributeInput} {out : ContributeOutput}
    (h : contribute i = .ok out) :
    i.amount ≤ i.authorityTokenBalance ∧ i.vaultBalance + i.amount < U64_MOD ∧
    i.amount ≤ capOf i.fundraise.amountToRaise ∧
    i.contributor.amount ≤ capOf i.fundraise.amountToRaise ∧
    u64add i.contributor.amount i.amount ≤ capOf i.fundraise.amountToRaise ∧
    out = { fundraise :=
              { i.fundraise with
                currentAmount := u64add i.fundraise.currentAmount i.amount }
            contributor :=
              { i.contributor with amount := u64add i.contributor.amount i.amount }
            authorityTokenBalance := i.authorityTokenBalance - i.amount
            vaultBalance := i.vaultBalance + i.amount } := by
  unfold contribute at h
  repeat' split at h
  any_goals exact Except.noConfusion h
  rename_i hbig htime hmax scrut payerBal vaultBal htt
  push_neg at hbig hmax
  obtain ⟨h1, h2, h3⟩ := tokenTransfer_ok_iff.mp htt
  obtain ⟨rfl, rfl⟩ := Prod.mk.injEq .. |>.mp h3
  simp only [Except.ok.injEq] at h
  exact ⟨h1, h2, hbig, hmax.1, hmax.2, h.symm⟩

theorem refund_ok_spec {i : RefundInput} {out : RefundOutput}
    (h : refund i = .ok out) :
    i.contributor.amount ≤ i.vaultBalance ∧
    i.authorityTokenBalance + i.contributor.amount < U64_MOD ∧
    i.vaultBalance < i.fundraise.amountToRaise ∧
    out.fundraise =
      { i.fundraise with
        currentAmount := u64sub i.fundraise.currentAmount i.contributor.amount } ∧
    out.vaultBalance = i.vaultBalance - i.contributor.amount ∧
    out.authorityTokenBalance = i.authorityTokenBalance + i.contributor.amount ∧
    out.vaultClosed = (u64sub i.vaultBalance i.contributor.amount == 0) ∧
    out.contribClosed = true ∧
    out.contribData = [255] ∧
    out.authorityLamports = i.authorityLamports + i.contributorRentLamports ∧
    out.makerLamports =
      (if u64sub i.vaultBalance i.contributor.amount == 0
       then i.makerLamports + i.vaultRentLamports else i.makerLamports) := by
  unfold refund at h
  repeat' split at h
  any_goals exact Except.noConfusion h
  all_goals {
    rename_i hlt htt
    obtain ⟨h1, h2, h3⟩ := tokenTransfer_ok_iff.mp htt
    obtain ⟨rfl, rfl⟩ := Prod.mk.injEq .. |>.mp h3
    simp only [Except.ok.injEq] at h
    subst h
    exact ⟨h1, h2, by omega, rfl, rfl, rfl, rfl, rfl, rfl, rfl, rfl⟩ }

/-! ## Concrete instances used by the claim theorems -/

/-- A small campaign: maker 2, asset 7, target 5000000, newly created at
time 0 with a one-day window. -/
def exCampaign : Fundraise :=
  { maker := 2, mintToRaise := 7, amountToRaise := 5000000, currentAmount := 0,
    timeStarted := 0, duration := 1, bump := 255 }

def exFundraiseKey : Nat := createProgramAddress [fundraiseSeedTag, 2, 255]

/-- A Contribute call one hour into the one-day window. -/
def exC1Open : ContributeInput :=
  { amount := 500000, mintOwner := AccountOwner.tokenProgram, decimals := 6,
    mintKey := 7, fundraiseKey := exFundraiseKey, fundraise := exCampaign,
    contributor := { fundraise := exFundraiseKey, authority := 9, amount := 0, bump := 0 },
    now := 3600, authorityTokenBalance := 1000000000, vaultBalance := 0 }

/-- The same Contribute call ten days after the one-day window opened. -/
def exC1Closed : ContributeInput :=
  { exC1Open with now := 864000 }

def exC1ClosedOut : ContributeOutput :=
  { fundraise := { exCampaign with currentAmount := 500000 },
    contributor :=
      { fundraise := exFundraiseKey, authority := 9, amount := 500000, bump := 0 },
    authorityTokenBalance := 999500000, vaultBalance := 500000 }

/-- A Contribute call of amount 2 on a 6-decimal asset, at the first
moment of the window. -/
def exC2 : ContributeInput :=
  { exC1Open with amount := 2, now := 0 }

def exC2Out : ContributeOutput :=
  { fundraise := { exCampaign with currentAmount := 2 },
    contributor :=
      { fundraise := exFundraiseKey, authority := 9, amount := 2, bump := 0 },
    authorityTokenBalance := 999999998, vaultBalance := 2 }

/-- The same minimum-check probe with amount 1. -/
def exC2One : ContributeInput :=
  { exC2 with amount := 1 }

/-- A campaign whose target is 2 ^ 60, for which the wrapping cap
computation of contribute.rs underflows to zero. -/
def exBigCampaign : Fundraise :=
  { maker := 2, mintToRaise := 7, amountToRaise := 2 ^ 60, currentAmount := 0,
    timeStarted := 0, duration := 1, bump := 255 }

/-- A Contribute call of amount 5 against the 2 ^ 60 target. -/
def exC3 : ContributeInput :=
  { amount := 5, mintOwner := AccountOwner.tokenProgram, decimals := 6,
    mintKey := 7, fundraiseKey := exFundraiseKey, fundraise := exBigCampaign,
    contributor := { fundraise := exFundraiseKey, authority := 9, amount := 0, bump := 0 },
    now := 0, authorityTokenBalance := 1000000000, vaultBalance := 0 }

/-- A Contribute call of an amount just above the exact cap of the small
campaign (cap = target with the modelled constants). -/
def exC3W : ContributeInput :=
  { exC1Open with amount := 5000001, now := 0 }

/-- An Initialize call with a 6-decimal asset and target 730. -/
def exC8 : InitInput :=
  { mintOwner := AccountOwner.tokenProgram, decimals := 6, amountToRaise := 730,
    duration := 1, now := 0, makerKey := 2, mintKey := 7, bump := 255 }

def exC8Rec : Fundraise :=
  { maker := 2, mintToRaise := 7, amountToRaise := 730, currentAmount := 0,
    timeStarted := 0, duration := 1, bump := 255 }

/-- The same Initialize call with target 729, exactly at the floor of the
code. -/
def exC8Below : InitInput :=
  { exC8 with amountToRaise := 729 }

def exContributorKey : Nat :=
  createProgramAddress [contributorSeedTag, exFundraiseKey, 9, 0]

/-- A campaign holding one live contribution of 100. -/
def exRefundCampaign : Fundraise :=
  { maker := 2, mintToRaise := 7, amountToRaise := 5000000, currentAmount := 100,
    timeStarted := 0, duration := 1, bump := 255 }

/-- A Refund call one hour into the window, target unmet, where the
recorded amount equals the whole vault balance. -/
def exC6 : RefundInput :=
  { fundraise := exRefundCampaign, fundraiseKey := exFundraiseKey, mintKey := 7,
    contributor := { fundraise := exFundraiseKey, authority := 9, amount := 100, bump := 0 },
    contributorKey := exContributorKey, now := 3600,
    vaultOwner := AccountOwner.tokenProgram, vaultBalance := 100,
    authorityTokenBalance := 50, contributorRentLamports := 11,
    vaultRentLamports := 13, makerLamports := 1000, authorityLamports := 2000 }

def exC6Out : RefundOutput :=
  { fundraise := { exRefundCampaign with currentAmount := 0 },
    vaultBalance := 0, authorityTokenBalance := 150, vaultClosed := true,
    makerLamports := 1013, authorityLamports := 2011, contribClosed := true,
    contribData := [255] }

/-- The Refund call of exC6 made three days after the one-day window
opened. -/
def exC9W : RefundInput :=
  { exC6 with now := 259200 }

/-- A Refund call on a campaign whose stored duration is 2 ^ 63 days, at
the very moment the campaign started. -/
def exC9 : RefundInput :=
  { exC6 with fundraise := { exRefundCampaign with duration := 2 ^ 63 },
              fundraiseKey :=
                createProgramAddress [fundraiseSeedTag, 2, 255],
              now := 0 }



/-- A Claim invocation by signer 5 against the campaign whose stored
maker is 2, with the vault balance at the target. -/
def exC7 : ClaimAccountsInput :=
  { makerIsSigner := true, makerKey := 5, mintKey := 7,
    mintOwner := AccountOwner.tokenProgram, mintDataLen := 82, mintDisc165 := 0,
    fundraiseOwner := AccountOwner.fundraiserProgram, fundraiseKey := exFundraiseKey,
    vaultKey := ataDerive exFundraiseKey 7, vaultOwner := AccountOwner.tokenProgram,
    vaultBalance := 5000000, makerTokenKey := ataDerive 5 7,
    makerTokenBalance := 0, fundraise := exCampaign }

/-- The Claim::process input corresponding to a vault holding the target
amount, claimed into an empty maker asset account. -/
def exC5 : ClaimInput :=
  { vaultOwner := AccountOwner.tokenProgram, vaultBalance := 5000000,
    fundraise := exCampaign, makerTokenBalance := 0 }

/-- The freshly initialised system state: no contributions, empty vault. -/
def exSys0 : SysState :=
  { fundraise := exCampaign, contribs := [], vaultBalance := 0 }

def exSys1 : SysState :=
  { fundraise := { exCampaign with currentAmount := 500000 },
    contribs := [(9, 500000)], vaultBalance := 500000 }

def exSys2 : SysState :=
  { fundraise := { exCampaign with currentAmount := 0 },
    contribs := [], vaultBalance := 0 }

/-! ## Claim theorems -/

/-- C1: contribute.rs line 190 raises FundraiserEnded exactly on the
states the spec calls open (except the first instant): one hour into a
one-day campaign the call fails with FundraiserEnded although
`duration_days > (now - start_time) / seconds_per_day` holds, and ten
days after the one-day window opened the very same call succeeds although
the window is no longer open.  The check polarity in the source is
inverted relative to the spec. -/
theorem contribute_window_check_inverted :
    (exC1Open.now = exC1Open.fundraise.timeStarted ∨
      (exC1Open.fundraise.duration : Int)
        > Int.tdiv (exC1Open.now - exC1Open.fundraise.timeStarted) SECONDS_TO_DAYS) ∧
    contribute exC1Open = .error (.Custom .FundraiserEnded) ∧
    ¬(exC1Closed.now = exC1Closed.fundraise.timeStarted ∨
      (exC1Closed.fundraise.duration : Int)
        > Int.tdiv (exC1Closed.now - exC1Closed.fundraise.timeStarted) SECONDS_TO_DAYS) ∧
    contribute exC1Closed = .ok exC1ClosedOut :=
  ⟨by decide, rfl, by decide, rfl⟩

/-- C2 (counterexample): a Contribute call of amount 2 with a 6-decimal
asset does not fail with ContributionTooSmall; it succeeds, although
2 is at most 10 ^ 6. -/
theorem contribute_min_check_counterexample :
    exC2.amount = 2 ∧ exC2.decimals = 6 ∧ exC2.amount ≤ 10 ^ exC2.decimals ∧
    contribute exC2 = .ok exC2Out :=
  ⟨rfl, rfl, by decide, rfl⟩

/-- C2 (amended): Contribute fails with ContributionTooSmall exactly when
the amount is at most `1 ^ decimals`, that is at most 1, for any number of
decimals — the threshold of contribute.rs line 165 is `1u64.pow(decimals)`,
not one whole unit scaled by decimals. -/
theorem contribute_too_small_iff (i : ContributeInput) (h : ownerValid i.mintOwner) :
    contribute i = .error (.Custom .ContributionTooSmall) ↔ i.amount ≤ 1 ^ i.decimals := by
  constructor
  · intro heq
    by_contra hgt
    unfold contribute at heq
    rw [if_pos h, if_neg hgt] at heq
    repeat' split at heq
    any_goals exact Except.noConfusion heq
    all_goals simp at heq
    subst heq
    have htt : tokenTransfer i.amount i.authorityTokenBalance i.vaultBalance
        = .error (.Custom .ContributionTooSmall) := by assumption
    exact absurd (tokenTransfer_error_shape htt) (by decide)
  · intro hle
    unfold contribute
    rw [if_pos h, if_pos hle]

/-- C2 (witness): amount 1 with a 6-decimal asset fails the minimum check. -/
theorem contribute_too_small_iff_witness :
    contribute exC2One = .error (.Custom .ContributionTooSmall) :=
  (contribute_too_small_iff exC2One (Or.inl rfl)).mpr (by decide)

/-- C8 (amended): Initialize fails with BelowMinRaiseAmount exactly when
the target is at or below `MIN_AMOUNT_TO_RAISE ^ decimals` — the constant
raised to the power of the decimals (initialize.rs line 149), not the
constant multiplied by 10 ^ decimals. -/
theorem init_floor_iff (i : InitInput) (h : ownerValid i.mintOwner) :
    initCampaign i = .error (.Custom .BelowMinRaiseAmount) ↔
      i.amountToRaise ≤ initFloor i.decimals := by
  unfold initCampaign
  rw [if_pos h]
  by_cases hle : i.amountToRaise ≤ initFloor i.decimals
  · rw [if_pos hle]
    simp [hle]
  · rw [if_neg hle]
    exact iff_of_false (fun hc => Except.noConfusion hc) hle

/-- C8 (witness): target 729 with a 6-decimal asset is rejected, since
the floor of the code is 3 ^ 6 = 729. -/
theorem init_floor_iff_witness :
    initCampaign exC8Below = .error (.Custom .BelowMinRaiseAmount) :=
  (init_floor_iff exC8Below (Or.inl rfl)).mpr (by decide)

/-- C8 (counterexample): target 730 with a 6-decimal asset passes the
floor check although it is far below any floor of the form
`constant * 10 ^ decimals`, and the floor of the code grows 27-fold, not
1000-fold, between 6 and 9 decimals. -/
theorem init_floor_counterexample :
    initCampaign exC8 = .ok exC8Rec ∧
    exC8.amountToRaise ≤ MIN_AMOUNT_TO_RAISE * 10 ^ exC8.decimals ∧
    initFloor 9 ≠ 1000 * initFloor 6 ∧ initFloor 9 = 27 * initFloor 6 :=
  ⟨rfl, by decide, by decide, by decide⟩

/-- C5: Claim fails with TargetNotMet exactly when the vault balance read
from the vault account is strictly below the target; otherwise it
succeeds, moving the entire balance into the maker asset account and
leaving the vault empty; and the result never depends on the stored
raised_amount.  The balance-bound hypothesis is the token-supply
invariant of the asset (total supply fits in u64). -/
theorem claim_target_gate (i : ClaimInput) (hown : ownerValid i.vaultOwner)
    (hsupply : i.makerTokenBalance + i.vaultBalance < U64_MOD) :
    (claimProcess i = .error (.Custom .TargetNotMet) ↔
      i.vaultBalance < i.fundraise.amountToRaise) ∧
    (i.fundraise.amountToRaise ≤ i.vaultBalance →
      claimProcess i = .ok (0, i.makerTokenBalance + i.vaultBalance)) ∧
    (∀ n, claimProcess { i with fundraise := { i.fundraise with currentAmount := n } }
        = claimProcess i) := by
  have htt : tokenTransfer i.vaultBalance i.vaultBalance i.makerTokenBalance
      = .ok (i.vaultBalance - i.vaultBalance, i.makerTokenBalance + i.vaultBalance) :=
    tokenTransfer_ok_iff.mpr ⟨le_refl _, by omega, rfl⟩
  refine ⟨?_, ?_, fun n => rfl⟩
  · unfold claimProcess
    rw [if_pos hown]
    by_cases hlt : i.vaultBalance < i.fundraise.amountToRaise
    · rw [if_pos hlt]
      simp [hlt]
    · rw [if_neg hlt, htt]
      exact iff_of_false (fun hc => Except.noConfusion hc) hlt
  · intro hge
    unfold claimProcess
    rw [if_pos hown, if_neg (by omega : ¬i.vaultBalance < i.fundraise.amountToRaise), htt,
      Nat.sub_self]

/-- C5 (witness): a vault holding exactly the target is fully drained
into the empty maker asset account. -/
theorem claim_target_gate_witness : claimProcess exC5 = .ok (0, 5000000) :=
  (claim_target_gate exC5 (Or.inl rfl) (by decide)).2.1 (by decide)

/-- C3 (counterexample): with a target of 2 ^ 60 the wrapping cap
computation of contribute.rs underflows to zero, so a contribution of 5
fails with ContributionTooBig although 5 does not exceed the exact cap
`target * MAX_CONTRIBUTION_PERCENTAGE_BPS / MAX_BPS = 2 ^ 60`. -/
theorem contribute_cap_wrap_counterexample :
    contribute exC3 = .error (.Custom .ContributionTooBig) ∧
    exC3.amount
      ≤ exC3.fundraise.amountToRaise * MAX_CONTRIBUTION_PERCENTAGE_BPS / MAX_BPS ∧
    exC3.contributor.amount = 0 ∧ capOf exC3.fundraise.amountToRaise = 0 :=
  ⟨rfl, by decide, rfl, rfl⟩

/-- C3 (amended): whenever `target * MAX_CONTRIBUTION_PERCENTAGE_BPS` and
`existing + amount` do not overflow u64, the cap rule holds exactly as the
claim states it: no successful Contribute leaves the cumulative recorded
amount above the exact cap, a single amount above the cap fails with
ContributionTooBig, and a call whose existing plus requested amount would
cross the cap fails with MaximumContributionsReached.  Outside those
bounds the code computes the cap and the sum with wrapping u64 arithmetic
and diverges from the exact reading. -/
theorem contribute_cap_no_overflow (i : ContributeInput)
    (hmul : i.fundraise.amountToRaise * MAX_CONTRIBUTION_PERCENTAGE_BPS < U64_MOD)
    (hadd : i.contributor.amount + i.amount < U64_MOD) :
    (∀ out, contribute i = .ok out →
      out.contributor.amount
        ≤ i.fundraise.amountToRaise * MAX_CONTRIBUTION_PERCENTAGE_BPS / MAX_BPS) ∧
    (ownerValid i.mintOwner → ¬i.amount ≤ 1 ^ i.decimals →
      createProgramAddress [fundraiseSeedTag, i.fundraise.maker, i.fundraise.bump]
        = i.fundraiseKey →
      i.fundraise.mintToRaise = i.mintKey →
      i.amount > i.fundraise.amountToRaise * MAX_CONTRIBUTION_PERCENTAGE_BPS / MAX_BPS →
      contribute i = .error (.Custom .ContributionTooBig)) ∧
    (ownerValid i.mintOwner → ¬i.amount ≤ 1 ^ i.decimals →
      createProgramAddress [fundraiseSeedTag, i.fundraise.maker, i.fundraise.bump]
        = i.fundraiseKey →
      i.fundraise.mintToRaise = i.mintKey →
      i.amount ≤ i.fundraise.amountToRaise * MAX_CONTRIBUTION_PERCENTAGE_BPS / MAX_BPS →
      ¬(i.now ≠ i.fundraise.timeStarted ∧
        i64OfU64 i.fundraise.duration
          > Int.tdiv (i.now - i.fundraise.timeStarted) SECONDS_TO_DAYS) →
      i.contributor.amount + i.amount
        > i.fundraise.amountToRaise * MAX_CONTRIBUTION_PERCENTAGE_BPS / MAX_BPS →
      contribute i = .error (.Custom .MaximumContributionsReached)) := by
  have hcap : capOf i.fundraise.amountToRaise
      = i.fundraise.amountToRaise * MAX_CONTRIBUTION_PERCENTAGE_BPS / MAX_BPS := by
    unfold capOf
    rw [Nat.mod_eq_of_lt hmul]
  refine ⟨?_, ?_, ?_⟩
  · intro out hok
    obtain ⟨_, _, _, _, hsum, hshape⟩ := contribute_ok_spec hok
    rw [hshape]
    show u64add i.contributor.amount i.amount ≤ _
    rw [← hcap]
    exact hsum
  · intro hown hsmall hpda hmint hgt
    unfold contribute
    rw [if_pos hown, if_neg hsmall, if_neg (not_not_intro hpda),
      if_neg (not_not_intro hmint), if_pos (by rw [hcap]; exact hgt)]
  · intro hown hsmall hpda hmint hle htime hgt
    unfold contribute
    rw [if_pos hown, if_neg hsmall, if_neg (not_not_intro hpda),
      if_neg (not_not_intro hmint), if_neg (by rw [hcap]; omega), if_neg htime,
      if_pos (Or.inr (by rw [u64add_eq_of_lt hadd, hcap]; exact hgt))]

/-- C3 (witness): with the small target, whose cap computation does not
overflow, an amount just above the cap fails with ContributionTooBig. -/
theorem contribute_cap_no_overflow_witness :
    contribute exC3W = .error (.Custom .ContributionTooBig) :=
  (contribute_cap_no_overflow exC3W (by decide) (by decide)).2.1
    (Or.inl rfl) (by decide) rfl rfl (by decide)

/-- C9 (amended): for a campaign whose stored duration is i64
representable (below 2 ^ 63), Refund fails with FundraiserEnded exactly
when `duration_days < (now - start_time) / seconds_per_day`, provided the
address and mint validations that precede the time check pass.  The
source casts the u64 duration with `as i64` (refund.rs line 117), so
durations of 2 ^ 63 and above are compared as negative numbers instead. -/
theorem refund_window_iff (i : RefundInput)
    (hpda : createProgramAddress [fundraiseSeedTag, i.fundraise.maker, i.fundraise.bump]
      = i.fundraiseKey)
    (hmint : i.fundraise.mintToRaise = i.mintKey)
    (hcpda : createProgramAddress
      [contributorSeedTag, i.contributor.fundraise, i.contributor.authority,
        i.contributor.bump] = i.contributorKey)
    (hdur : i.fundraise.duration < 2 ^ 63) :
    refund i = .error (.Custom .FundraiserEnded) ↔
      (i.fundraise.duration : Int)
        < Int.tdiv (i.now - i.fundraise.timeStarted) SECONDS_TO_DAYS := by
  have hcast : i64OfU64 i.fundraise.duration = (i.fundraise.duration : Int) := by
    unfold i64OfU64
    rw [if_pos hdur]
  unfold refund
  rw [if_neg (not_not_intro hpda), if_neg (not_not_intro hmint),
    if_neg (not_not_intro hcpda), hcast]
  by_cases ht : (i.fundraise.duration : Int)
      < Int.tdiv (i.now - i.fundraise.timeStarted) SECONDS_TO_DAYS
  · rw [if_pos ht]
    simp [ht]
  · rw [if_neg ht]
    refine iff_of_false (fun heq => ?_) ht
    repeat' split at heq
    any_goals exact Except.noConfusion heq
    all_goals simp at heq
    subst heq
    have htt : tokenTransfer i.contributor.amount i.vaultBalance i.authorityTokenBalance
        = .error (.Custom .FundraiserEnded) := by assumption
    exact absurd (tokenTransfer_error_shape htt) (by decide)

/-- C9 (witness): three days after a one-day campaign opened, Refund
fails with FundraiserEnded, and the amended condition 1 < 3 holds. -/
theorem refund_window_iff_witness :
    refund exC9W = .error (.Custom .FundraiserEnded) :=
  (refund_window_iff exC9W rfl rfl rfl (by decide)).mpr (by decide)

/-- C9 (counterexample): a campaign whose stored duration is 2 ^ 63 days
is refunded at its very first instant, yet the call fails with
FundraiserEnded although `duration_days < (now - start_time) /
seconds_per_day` is false: the `as i64` cast of refund.rs line 117 turns
the stored duration into a negative number. -/
theorem refund_duration_cast_counterexample :
    refund exC9 = .error (.Custom .FundraiserEnded) ∧
    ¬((exC9.fundraise.duration : Int)
        < Int.tdiv (exC9.now - exC9.fundraise.timeStarted) SECONDS_TO_DAYS) :=
  ⟨rfl, by decide⟩

/-- C6 (amended): every successful Refund closes the Contribution record,
writing 0xff (not zero) into its leading byte, shrinking it to one byte
and moving its rent lamports to the contributor; and it closes the vault,
moving the vault rent to the maker, exactly when the transfer drains the
vault balance to zero. -/
theorem refund_close_effects (i : RefundInput) (out : RefundOutput)
    (hv : i.vaultBalance < U64_MOD) (h : refund i = .ok out) :
    out.contribClosed = true ∧ out.contribData = [255] ∧
    out.authorityLamports = i.authorityLamports + i.contributorRentLamports ∧
    (out.vaultClosed = true ↔ out.vaultBalance = 0) ∧
    (out.vaultClosed = true → out.makerLamports = i.makerLamports + i.vaultRentLamports) ∧
    (out.vaultClosed = false → out.makerLamports = i.makerLamports) := by
  obtain ⟨hcv, _, _, _, hvb, _, hclosed, hcc, hcd, hal, hml⟩ := refund_ok_spec h
  have hsub : u64sub i.vaultBalance i.contributor.amount
      = i.vaultBalance - i.contributor.amount := u64sub_eq_of_le hcv hv
  refine ⟨hcc, hcd, hal, ?_, ?_, ?_⟩
  · rw [hclosed, hvb, hsub]
    simp
  · intro hc
    rw [hml]
    rw [hclosed] at hc
    rw [if_pos hc]
  · intro hc
    rw [hml]
    rw [hclosed] at hc
    simp only [hc]
    rw [if_neg (by simp)]

/-- C6 (witness): the concrete refund that drains the vault closes both
accounts and stamps the record with the 0xff tombstone. -/
theorem refund_close_effects_witness :
    exC6Out.contribData = [255] ∧ (exC6Out.vaultClosed = true ↔ exC6Out.vaultBalance = 0) :=
  ⟨(refund_close_effects exC6 exC6Out (by decide) rfl).2.1,
    (refund_close_effects exC6 exC6Out (by decide) rfl).2.2.2.1⟩

/-- C6 (counterexample): the tombstone byte written by
ProgramAccount::close is 0xff, not zero. -/
theorem refund_tombstone_counterexample :
    refund exC6 = .ok exC6Out ∧ exC6Out.contribData = [255] ∧ exC6Out.contribData ≠ [0] :=
  ⟨rfl, rfl, by decide⟩

/-- C10: under the precondition that the recorded amount is at most both
the stored raised amount and the vault balance (with both u64 sized), the
two unguarded subtractions of refund.rs lines 149 and 168 do not wrap,
and the vault-close branch is taken exactly when the vault balance equals
the recorded amount. -/
theorem refund_subtractions_no_wrap (i : RefundInput) (out : RefundOutput)
    (hraised : i.contributor.amount ≤ i.fundraise.currentAmount)
    (hvault : i.contributor.amount ≤ i.vaultBalance)
    (hrb : i.fundraise.currentAmount < U64_MOD) (hvb : i.vaultBalance < U64_MOD) :
    u64sub i.fundraise.currentAmount i.contributor.amount
      = i.fundraise.currentAmount - i.contributor.amount ∧
    u64sub i.vaultBalance i.contributor.amount
      = i.vaultBalance - i.contributor.amount ∧
    (u64sub i.vaultBalance i.contributor.amount = 0 ↔
      i.vaultBalance = i.contributor.amount) ∧
    (refund i = .ok out →
      out.fundraise.currentAmount
          = i.fundraise.currentAmount - i.contributor.amount ∧
      (out.vaultClosed = true ↔ i.vaultBalance = i.contributor.amount)) := by
  have h1 := u64sub_eq_of_le hraised hrb
  have h2 := u64sub_eq_of_le hvault hvb
  refine ⟨h1, h2, by rw [h2]; omega, fun h => ?_⟩
  obtain ⟨_, _, _, hfr, _, _, hclosed, _, _, _, _⟩ := refund_ok_spec h
  constructor
  · rw [hfr]
    exact h1
  · rw [hclosed, h2]
    simp
    omega

/-- C10 (witness): the concrete refund whose recorded amount equals the
vault balance takes the vault-close branch. -/
theorem refund_subtractions_no_wrap_witness :
    exC6Out.fundraise.currentAmount
        = exC6.fundraise.currentAmount - exC6.contributor.amount ∧
    (exC6Out.vaultClosed = true ↔ exC6.vaultBalance = exC6.contributor.amount) :=
  (refund_subtractions_no_wrap exC6 exC6Out (by decide) (by decide) (by decide)
    (by decide)).2.2.2 rfl

/-- C7: the Claim handler never cross-checks the signer against the
stored maker: the concrete invocation by signer 5 against a campaign
whose stored maker is 2, with the vault at the target, passes the signer
check, the mint interface check, the record-owner check, the vault check
and the signer-asset-account derivation, and succeeds, draining the
vault into the asset account derived for signer 5. -/
theorem claim_no_maker_crosscheck :
    exC7.makerKey ≠ exC7.fundraise.maker ∧
    exC7.fundraise.amountToRaise ≤ exC7.vaultBalance ∧
    exC7.makerTokenKey = ataDerive exC7.makerKey exC7.mintKey ∧
    claimFull exC7 = .ok (0, exC7.makerTokenBalance + exC7.vaultBalance) :=
  ⟨by decide, by decide, rfl, rfl⟩

/-- C4: the ledger invariant `raised_amount = sum of the live
Contribution records of the campaign` (together with the distinctness of
the record keys and the matching vault balance, which the argument
needs) is preserved by every successful Contribute and every successful
Refund. -/
theorem raised_eq_live_sum_preserved (s : SysState) (hInv : Inv s) :
    (∀ (ckey amount decimals : Nat) (now : Int) (payerBal : Nat) (s' : SysState),
      sysContribute s ckey amount decimals now payerBal = .ok s' → Inv s') ∧
    (∀ (ckey : Nat) (now : Int) (payerBal rent vaultRent mLam aLam : Nat)
      (s' : SysState),
      sysRefund s ckey now payerBal rent vaultRent mLam aLam = .ok s' → Inv s') := by
  obtain ⟨hnd, hcur, hvault, hlt⟩ := hInv
  constructor
  · intro ckey amount decimals now payerBal s' h
    unfold sysContribute at h
    cases hc : contribute (contributeInputOf s ckey amount decimals now payerBal) with
    | error e =>
        rw [hc] at h
        exact Except.noConfusion h
    | ok out =>
        rw [hc] at h
        simp only [Except.ok.injEq] at h
        subst h
        obtain ⟨hpay, hvm, hca, hcc, hsum, hshape⟩ := contribute_ok_spec hc
        simp only [contributeInputOf] at hvm hshape
        have hg : (alookup ckey s.contribs).getD 0 ≤ listSum s.contribs := by
          cases hl : alookup ckey s.contribs with
          | none => simp
          | some c => simpa using alookup_le_listSum hl
        have hvm' : s.vaultBalance + amount < U64_MOD := hvm
        have hgadd : (alookup ckey s.contribs).getD 0 + amount < U64_MOD := by
          omega
        have hcuradd : s.fundraise.currentAmount + amount < U64_MOD := by
          omega
        have hups := listSum_aupsert (k := ckey)
          (v := u64add ((alookup ckey s.contribs).getD 0) amount) (l := s.contribs)
        rw [u64add_eq_of_lt hgadd] at hups
        refine ⟨keysNodup_aupsert hnd, ?_, ?_, ?_⟩
        · show out.fundraise.currentAmount
            = listSum (aupsert ckey out.contributor.amount s.contribs)
          rw [hshape]
          show u64add s.fundraise.currentAmount amount
            = listSum (aupsert ckey (u64add ((alookup ckey s.contribs).getD 0) amount)
                s.contribs)
          rw [u64add_eq_of_lt hcuradd, u64add_eq_of_lt hgadd]
          omega
        · show out.vaultBalance
            = listSum (aupsert ckey out.contributor.amount s.contribs)
          rw [hshape]
          show s.vaultBalance + amount
            = listSum (aupsert ckey (u64add ((alookup ckey s.contribs).getD 0) amount)
                s.contribs)
          rw [u64add_eq_of_lt hgadd]
          omega
        · show listSum (aupsert ckey out.contributor.amount s.contribs) < U64_MOD
          rw [hshape]
          show listSum (aupsert ckey (u64add ((alookup ckey s.contribs).getD 0) amount)
              s.contribs) < U64_MOD
          rw [u64add_eq_of_lt hgadd]
          omega
  · intro ckey now payerBal rent vaultRent mLam aLam s' h
    unfold sysRefund at h
    cases hl : alookup ckey s.contribs with
    | none =>
        rw [hl] at h
        exact Except.noConfusion h
    | some c =>
        rw [hl] at h
        dsimp only at h
        cases hr : refund (refundInputOf s ckey c now payerBal rent vaultRent mLam aLam) with
        | error e =>
            rw [hr] at h
            exact Except.noConfusion h
        | ok out =>
            rw [hr] at h
            simp only [Except.ok.injEq] at h
            subst h
            obtain ⟨hcv, _, _, hfr, hvb, _, _, _, _, _, _⟩ := refund_ok_spec hr
            simp only [refundInputOf] at hcv hfr hvb
            have hcs : c ≤ listSum s.contribs := alookup_le_listSum hl
            have hrm := listSum_aremove hnd hl
            refine ⟨keysNodup_aremove hnd, ?_, ?_, ?_⟩
            · show out.fundraise.currentAmount = listSum (aremove ckey s.contribs)
              rw [hfr]
              show u64sub s.fundraise.currentAmount c = listSum (aremove ckey s.contribs)
              rw [u64sub_eq_of_le (by omega) (by omega)]
              omega
            · show out.vaultBalance = listSum (aremove ckey s.contribs)
              rw [hvb]
              omega
            · show listSum (aremove ckey s.contribs) < U64_MOD
              omega

/-- C4 (witness): the invariant holds after the concrete contribution of
500000 into the fresh campaign and again after its refund. -/
theorem raised_eq_live_sum_preserved_witness : Inv exSys1 ∧ Inv exSys2 :=
  ⟨(raised_eq_live_sum_preserved exSys0 (by decide)).1 9 500000 6 0 1000000000
      exSys1 rfl,
    (raised_eq_live_sum_preserved exSys1
      ((raised_eq_live_sum_preserved exSys0 (by decide)).1 9 500000 6 0 1000000000
        exSys1 rfl)).2 9 3600 0 11 13 1000 2000 exSys2 rfl⟩

end Pinocchio
